import Mathlib

/-!
Shallow embedding of `src/pinsect/model.py` (pinsect-cam): the application
model, configuration persistence, and the capture-worker loop, together with
theorems settling the frozen claims about this code.

Conventions of the embedding:
* Python `int` values become `Int`; JSON values become the inductive `JVal`.
* The shared mutable application state (`AppState` merged with the running
  `AppModel`, the filesystem, the spawned threads and the fired hooks) becomes
  the record `Sys`, and each Python method becomes a function on `Sys`.
* Exceptions become `Except PyErr`; the Python exception classes that actually
  arise in this module are enumerated in `PyErr`.
* `stderr` prints are not modelled (they are not observable hooks).
-/

namespace Pinsect

/-- Python exception classes that arise in `model.py`. -/
inductive PyErr
  | osError
  | valueError
  | typeError
  | nameError
deriving DecidableEq

/-- JSON scalar values as produced by `json.load` / consumed by `json.dump`.
The configuration file in this program only ever holds numbers and strings. -/
inductive JVal
  | jnum (n : Int)
  | jstr (s : String)
  | jbool (b : Bool)
  | jnull
deriving DecidableEq

/-- A parsed JSON object: the key/value pairs of a JSON dictionary. -/
abbrev JObj := List (String × JVal)

/-- Source `class AppConfig` (model.py lines 49-63): the three persisted fields.
Python is untyped, so each field holds whatever JSON value the store supplied. -/
structure AppConfig where
  interval : JVal
  work_dir : JVal
  min_free : JVal
deriving DecidableEq

/-- Source `DEFAULT_CONFIG` (model.py lines 33-41): interval 60 seconds, work
directory `pinsect-cam` under the home directory, 50 MB minimum free space.
The home directory is environment-dependent, so it is a parameter. -/
def defaultConfig (home : String) : AppConfig :=
  { interval := JVal.jnum 60
    work_dir := JVal.jstr (home ++ "/pinsect-cam")
    min_free := JVal.jnum 50 }

/-- Constructor `AppConfig.__init__(self, interval=..., work_dir=..., min_free=..., **kwargs)`
applied to the keyword arguments `json.load` produced: each declared parameter
takes the supplied value or its default; every other key is swallowed by
`**kwargs` and discarded. -/
def AppConfig.fromKwargs (home : String) (obj : JObj) : AppConfig :=
  { interval := (obj.lookup "interval").getD (defaultConfig home).interval
    work_dir := (obj.lookup "work_dir").getD (defaultConfig home).work_dir
    min_free := (obj.lookup "min_free").getD (defaultConfig home).min_free }

/-- Result of parsing the bytes of a present, readable store file. -/
inductive JsonDoc
  | malformed
  | objValue (o : JObj)
  | nonObjectValue
deriving DecidableEq

/-- The state of the settings-store file as `AppConfig.load` finds it. -/
inductive StoreFile
  | missing
  | unreadable
  | text (doc : JsonDoc)
deriving DecidableEq

/-- Source `AppConfig.load` (model.py lines 65-73): `open`/read failures raise
`OSError`, which the `except OSError` clause turns into a default `AppConfig()`;
a parse failure raises `json.JSONDecodeError` (a `ValueError`), which is NOT
caught and propagates; a parsed JSON object is splatted into the constructor;
a parsed non-object cannot be splatted and raises `TypeError`, also uncaught. -/
def AppConfig.load (home : String) (file : StoreFile) : Except PyErr AppConfig :=
  match file with
  | StoreFile.missing => Except.ok (defaultConfig home)
  | StoreFile.unreadable => Except.ok (defaultConfig home)
  | StoreFile.text JsonDoc.malformed => Except.error PyErr.valueError
  | StoreFile.text (JsonDoc.objValue o) => Except.ok (AppConfig.fromKwargs home o)
  | StoreFile.text JsonDoc.nonObjectValue => Except.error PyErr.typeError

/-- Source `AppConfig.save` (model.py lines 75-79): `json.dump(vars(self), outputf)`
writes exactly the three instance attributes, in their insertion order. -/
def AppConfig.save (c : AppConfig) : StoreFile :=
  StoreFile.text (JsonDoc.objValue
    [("interval", c.interval), ("work_dir", c.work_dir), ("min_free", c.min_free)])

/-- The mode enumeration `IDLE / RECORDING / PREVIEW` (model.py lines 17-30). -/
inductive Mode
  | idle
  | recording
  | preview
deriving DecidableEq

/-- Source `MIN_INTERVAL` (model.py line 44). -/
def MIN_INTERVAL : Int := 1

/-- Source `MAX_INTERVAL` (model.py line 46): ten minutes. -/
def MAX_INTERVAL : Int := 60 * 10

/-- Observable effects fired by the model: the two observer hooks of
`AppState` (`on_uiupdate`, `on_image`), the `ui.show_error` alert, and the
`messagebox.showerror` disk-full alert. -/
inductive Event
  | onUiupdate
  | onImage (path : String)
  | showError
  | msgboxDiskFull
deriving DecidableEq

/-- Lifecycle of the Python `threading.Thread` wrapping `_run`. -/
inductive ThreadStatus
  | notStarted
  | spawned
  | inLoop
  | finished
  | crashed (e : PyErr)
deriving DecidableEq

/-- A `RaspiStillThread` instance (model.py lines 151-159): the variant tag
(PreviewThread vs RecordThread), the `running` flag, and the instance
attribute `stop`, which `__init__` binds to the boolean `False` — thereby
shadowing the class method of the same name. -/
structure WorkerObj where
  isPreview : Bool
  running : Bool
  stopFlag : Bool
  status : ThreadStatus
deriving DecidableEq

/-- Source `RaspiStillThread.__init__`: both flags false, thread not yet started. -/
def initWorker (isPreview : Bool) : WorkerObj :=
  { isPreview := isPreview, running := false, stopFlag := false
    status := ThreadStatus.notStarted }

/-- Filesystem paths as component lists; `pathlib`'s `/` appends a component. -/
def pathString (comps : List String) : String :=
  String.intercalate "/" comps

/-- The whole observable state: `AppState` fields (mode, interval, work_dir,
min_free), the directories existing on disk, the spawned worker threads, and
the trace of fired hooks/alerts. -/
structure Sys where
  mode : Mode
  interval : Int
  work_dir : List String
  min_free : Int
  fs : List (List String)
  workers : List WorkerObj
  events : List Event
deriving DecidableEq

/-- Source `AppModel.get_interval` (model.py lines 141-142). -/
def get_interval (s : Sys) : Int :=
  s.interval

/-- Source `AppModel.set_interval` (model.py lines 144-148): values outside
[MIN_INTERVAL, MAX_INTERVAL] are silently discarded by the guard. -/
def set_interval (n : Int) (s : Sys) : Sys :=
  if n < MIN_INTERVAL ∨ n > MAX_INTERVAL then s
  else { s with interval := n }

/-- A wall-clock instant as `datetime.datetime.now()` returns it: calendar
fields down to microseconds. -/
structure DateTime where
  year : Nat
  month : Nat
  day : Nat
  hour : Nat
  minute : Nat
  second : Nat
  microsecond : Nat
deriving DecidableEq

/-- Two-digit zero padding, as the `%m %d %H %M %S` strftime directives do. -/
def pad2 (n : Nat) : String :=
  if n < 10 then "0" ++ toString n else toString n

/-- The strftime call with format Y-m-d_H-M-S (model.py line 257): whole-second
resolution; the microsecond field is dropped by the format string. -/
def strftimeToken (t : DateTime) : String :=
  toString t.year ++ "-" ++ pad2 t.month ++ "-" ++ pad2 t.day ++ "_" ++
    pad2 t.hour ++ "-" ++ pad2 t.minute ++ "-" ++ pad2 t.second

/-- The instant with its sub-second part discarded, mirroring what the
strftime format string retains. -/
def truncToSecond (t : DateTime) : DateTime :=
  { t with microsecond := 0 }

/-- Append a directory to the set of existing directories unless it is
already present; `mkdir(exist_ok=True)` never fails on an existing one. -/
def insertIfAbsent (fs : List (List String)) (d : List String) : List (List String) :=
  if d ∈ fs then fs else fs ++ [d]

/-- The nonempty prefixes of a component path, shortest first: the chain of
directories `mkdir(parents=True)` creates. -/
def ancestors (d : List String) : List (List String) :=
  (List.range d.length).map (fun k => d.take (k + 1))

/-- Source `Path(d).mkdir(exist_ok=True, parents=True)`: create the directory and
every missing ancestor; tolerate any of them already existing. -/
def mkdirParents (fs : List (List String)) (d : List String) : List (List String) :=
  (ancestors d).foldl insertIfAbsent fs

/-- Runtime values an attribute of a `RaspiStillThread` instance can hold in
this module: a boolean, or a function (an unshadowed class method). -/
inductive PyVal
  | vBool (b : Bool)
  | vMethod (name : String)
deriving DecidableEq

/-- The class dictionary of `RaspiStillThread`: its methods. -/
def classAttrs : List (String × PyVal) :=
  [("get_interval", PyVal.vMethod "get_interval"),
   ("get_jpeg_path", PyVal.vMethod "get_jpeg_path"),
   ("_run", PyVal.vMethod "_run"),
   ("_should_stop_full", PyVal.vMethod "_should_stop_full"),
   ("take_image", PyVal.vMethod "take_image"),
   ("start", PyVal.vMethod "start"),
   ("stop", PyVal.vMethod "stop")]

/-- The instance dictionary after `__init__` (model.py lines 154-159), for the
attributes the claims consult: `self.running = False` and `self.stop = False`
store booleans on the instance (`app_state`, `model` and `lock` also live
there but are never looked up by the modelled operations). Every later
assignment to these two names stores a boolean again. -/
def instanceAttrs (w : WorkerObj) : List (String × PyVal) :=
  [("running", PyVal.vBool w.running), ("stop", PyVal.vBool w.stopFlag)]

/-- Python attribute resolution on a `RaspiStillThread` instance: the instance
dictionary is consulted before the class dictionary. -/
def getattrWorker (w : WorkerObj) (name : String) : Option PyVal :=
  match (instanceAttrs w).lookup name with
  | some v => some v
  | none => classAttrs.lookup name

/-- The body of the class method `RaspiStillThread.stop` (model.py lines
234-240): if not running, log and return unchanged; otherwise set the stop
flag. This is what `stop` would do if the lookup ever reached the class. -/
def stopMethodBody (w : WorkerObj) : WorkerObj :=
  if ¬ w.running then w
  else { w with stopFlag := true }

/-- Evaluating the call expression `self.stop()` (as `take_image`'s except
clause does) or `worker.stop()` (as a caller would): attribute resolution
finds the boolean instance attribute `stop` set by `__init__`, and calling a
boolean raises `TypeError`; only if resolution reached the class method would
the method body run. -/
def callMethodStop (w : WorkerObj) : Except PyErr WorkerObj :=
  match getattrWorker w "stop" with
  | some (PyVal.vBool _) => Except.error PyErr.typeError
  | some (PyVal.vMethod _) => Except.ok (stopMethodBody w)
  | none => Except.error PyErr.typeError

/-- Source `RaspiStillThread.start` (model.py lines 224-232): refuse to start twice;
otherwise spawn a daemon thread that will run `_run`. -/
def startThread (w : WorkerObj) : WorkerObj :=
  if w.running then w
  else { w with status := ThreadStatus.spawned }

/-- Source `PreviewThread.get_jpeg_path` (model.py lines 247-248): the fixed file
`preview.jpeg` directly under the work directory; no side effect. -/
def previewJpegComps (s : Sys) : List String :=
  s.work_dir ++ ["preview.jpeg"]

/-- Source `RecordThread.get_jpeg_path` (model.py lines 255-260): a year-named
sub-directory of the work directory — created on the spot with
`mkdir(exist_ok=True, parents=True)` — holding `MBF_<timestamp>.jpeg`. -/
def recordJpegComps (s : Sys) (now : DateTime) : Sys × List String :=
  let dir := s.work_dir ++ [toString now.year]
  ({ s with fs := mkdirParents s.fs dir },
   dir ++ ["MBF_" ++ strftimeToken now ++ ".jpeg"])

/-- Dispatch `get_jpeg_path` by variant. -/
def getJpegComps (s : Sys) (w : WorkerObj) (now : DateTime) : Sys × List String :=
  if w.isPreview then (s, previewJpegComps s) else recordJpegComps s now

/-- Source `AppModel.preview_path` (model.py lines 115-116). -/
def preview_path (s : Sys) : String :=
  pathString (previewJpegComps s)

/-- Source `AppModel.start_preview` (model.py lines 101-113): set mode, build a
`PreviewThread`, read its target path, start it, fire `on_uiupdate`, return
the path. -/
def start_preview (s : Sys) : Sys × String :=
  let s1 : Sys := { s with mode := Mode.preview }
  let w := startThread (initWorker true)
  let res := pathString (previewJpegComps s1)
  let s2 : Sys := { s1 with workers := s1.workers ++ [w] }
  ({ s2 with events := s2.events ++ [Event.onUiupdate] }, res)

/-- Source `AppModel.stop_preview` (model.py lines 118-124): guarded on the mode; it
resets the mode and fires `on_uiupdate`, and touches no worker (the model
retains no reference to the thread it spawned). -/
def stop_preview (s : Sys) : Sys :=
  if s.mode ≠ Mode.preview then s
  else { s with mode := Mode.idle, events := s.events ++ [Event.onUiupdate] }

/-- Source `AppModel.start_recording` (model.py lines 126-134): set mode, build a
`RecordThread`, compute its target path (which creates the year directory as
a side effect), start the thread, fire `on_uiupdate`, return the path. -/
def start_recording (s : Sys) (now : DateTime) : Sys × String :=
  let s1 : Sys := { s with mode := Mode.recording }
  let pr := recordJpegComps s1 now
  let w := startThread (initWorker false)
  let s2 : Sys := { pr.1 with workers := pr.1.workers ++ [w] }
  ({ s2 with events := s2.events ++ [Event.onUiupdate] }, pathString pr.2)

/-- Source `AppModel.stop_recording` (model.py lines 136-139): unconditionally set
the mode to idle and fire `on_uiupdate` — unlike `stop_preview` there is no
mode guard; no worker is touched. -/
def stop_recording (s : Sys) : Sys :=
  { s with mode := Mode.idle, events := s.events ++ [Event.onUiupdate] }

/-- Names bound at module scope in model.py: the eight imports, `messagebox`,
`ui`, the state constants, the default-config pair, the interval bounds and
the five classes. The name `path` is not among them, is not a Python builtin,
and `_should_stop_full` has no local binding for it either. -/
def moduleGlobals : List String :=
  ["datetime", "json", "pathlib", "shutil", "subprocess", "sys", "time",
   "threading", "messagebox", "ui", "IDLE", "RECORDING", "PREVIEW", "STATES",
   "DEFAULT_CONFIG_", "DEFAULT_CONFIG", "MIN_INTERVAL", "MAX_INTERVAL",
   "AppConfig", "AppState", "AppModel", "RaspiStillThread", "PreviewThread",
   "RecordThread"]

/-- Python name resolution as it applies inside `_should_stop_full`: a name
with no local or enclosing binding is looked up in the module globals and then
the builtins; an unbound name raises `NameError`. (The `ok` payload is a
placeholder for the value a global would supply; for `path` it is never
reached.) -/
def lookupName (n : String) : Except PyErr String :=
  if n ∈ moduleGlobals then Except.ok n else Except.error PyErr.nameError

/-- Parent of a slash-separated path string, as `pathlib.Path(p).parent`. -/
def parentOf (p : String) : String :=
  pathString ((p.splitOn "/").dropLast)

/-- Source `RaspiStillThread._should_stop_full` (model.py lines 184-195),
translated statement by statement: evaluate the name `path` (unbound — this
raises `NameError` before anything else happens); were it bound, take the free
bytes of the filesystem of its parent (`diskFree` is the disk oracle), and if
they fall below `min_free` megabytes set the stop flag, alert, and report
true; otherwise report false. -/
def shouldStopFull (diskFree : String → Int) (s : Sys) (w : WorkerObj) :
    Except PyErr (Bool × WorkerObj × Sys) :=
  match lookupName "path" with
  | Except.error e => Except.error e
  | Except.ok p =>
    let freeBytes := diskFree (parentOf p)
    if freeBytes < s.min_free * 1024 * 1024 then
      Except.ok (true, { w with stopFlag := true },
        { s with events := s.events ++ [Event.msgboxDiskFull] })
    else
      Except.ok (false, w, s)

/-- Outcome of the `subprocess.run` invocation of `raspistill`: either the
process ran to completion (with some exit status — the call passes no
`check=True`, so the status is never inspected), or the invocation itself
raised (for instance `FileNotFoundError` when the tool is absent). -/
inductive CaptureOutcome
  | ran (exitCode : Int)
  | raises
deriving DecidableEq

/-- Source `RaspiStillThread.take_image` (model.py lines 197-222): compute the
target path (the source evaluates `get_jpeg_path` twice; with one clock
reading the results coincide), create the parent directory, run the external
tool, sleep, fire `on_image`; on an exception, show the error, call
`model.stop_preview()` and `model.stop_recording()`, then evaluate
`self.stop()` — which resolves to the boolean instance attribute and raises
`TypeError`, so the trailing bare `raise` is never reached. -/
def take_image (outcome : CaptureOutcome) (now : DateTime) (s : Sys)
    (w : WorkerObj) : Sys × WorkerObj × Except PyErr String :=
  let pr := getJpegComps s w now
  let path := pathString pr.2
  let s1 : Sys := { pr.1 with fs := mkdirParents pr.1.fs pr.2.dropLast }
  match outcome with
  | CaptureOutcome.ran _code =>
      ({ s1 with events := s1.events ++ [Event.onImage path] }, w,
       Except.ok path)
  | CaptureOutcome.raises =>
      let s2 : Sys := { s1 with events := s1.events ++ [Event.showError] }
      let s3 := stop_recording (stop_preview s2)
      match callMethodStop w with
      | Except.error e => (s3, w, Except.error e)
      | Except.ok w2 => (s3, w2, Except.error PyErr.osError)

/-- One scheduler step of the thread running `RaspiStillThread._run`
(model.py lines 169-182): entering `_run` sets `running`; each loop pass
first tests the stop flag (false → call `_should_stop_full`, and on its
uncaught exception the thread dies with the flags as they were; true → run
the epilogue that clears both flags); a `break` from the disk guard also runs
the epilogue; otherwise `take_image` runs and the loop sleeps. -/
def loopIter (diskFree : String → Int) (outcome : CaptureOutcome)
    (now : DateTime) (s : Sys) (w : WorkerObj) : Sys × WorkerObj :=
  match w.status with
  | ThreadStatus.notStarted => (s, w)
  | ThreadStatus.spawned =>
      (s, { w with running := true, stopFlag := false
                   status := ThreadStatus.inLoop })
  | ThreadStatus.inLoop =>
      if w.stopFlag then
        (s, { w with stopFlag := false, running := false
                     status := ThreadStatus.finished })
      else
        match shouldStopFull diskFree s w with
        | Except.error e => (s, { w with status := ThreadStatus.crashed e })
        | Except.ok (true, w1, s1) =>
            (s1, { w1 with stopFlag := false, running := false
                           status := ThreadStatus.finished })
        | Except.ok (false, w1, s1) =>
            let r := take_image outcome now s1 w1
            match r.2.2 with
            | Except.ok _ => (r.1, r.2.1)
            | Except.error e =>
                (r.1, { r.2.1 with status := ThreadStatus.crashed e })
  | ThreadStatus.finished => (s, w)
  | ThreadStatus.crashed _ => (s, w)

/-- Run one scheduler step of the first spawned worker, if any. -/
def stepFirstWorker (diskFree : String → Int) (outcome : CaptureOutcome)
    (now : DateTime) (s : Sys) : Sys :=
  match s.workers with
  | [] => s
  | w :: rest =>
      let r := loopIter diskFree outcome now s w
      { r.1 with workers := r.2 :: rest }

/-- A concrete startup state: idle, the configured defaults, an empty
filesystem, no workers, no events yet. -/
def initSys : Sys :=
  { mode := Mode.idle, interval := 60
    work_dir := ["", "home", "pi", "pinsect-cam"]
    min_free := 50, fs := [], workers := [], events := [] }

/-- A disk oracle with plenty of free space everywhere. -/
def dF0 : String → Int := fun _ => 1000000000000

/-- A concrete clock reading. -/
def t0 : DateTime :=
  { year := 2024, month := 5, day := 17, hour := 12, minute := 0, second := 0
    microsecond := 0 }

/-- Concrete scheduler step used by the scenario theorems. -/
def step0 : Sys → Sys :=
  stepFirstWorker dF0 (CaptureOutcome.ran 0) t0

/-! Helper lemmas about the directory-creation model. -/

theorem mem_insertIfAbsent_of_mem (fs : List (List String)) (d x : List String)
    (h : x ∈ fs) : x ∈ insertIfAbsent fs d := by
  unfold insertIfAbsent
  split
  · exact h
  · exact List.mem_append_left _ h

theorem self_mem_insertIfAbsent (fs : List (List String)) (d : List String) :
    d ∈ insertIfAbsent fs d := by
  unfold insertIfAbsent
  split
  · assumption
  · exact List.mem_append_right _ (List.mem_singleton.mpr rfl)

theorem insertIfAbsent_eq_of_mem (fs : List (List String)) (d : List String)
    (h : d ∈ fs) : insertIfAbsent fs d = fs := by
  unfold insertIfAbsent
  exact if_pos h

theorem mem_foldl_insert_of_mem (ds : List (List String))
    (fs : List (List String)) (x : List String) (h : x ∈ fs) :
    x ∈ ds.foldl insertIfAbsent fs := by
  induction ds generalizing fs with
  | nil => exact h
  | cons a ds ih => exact ih _ (mem_insertIfAbsent_of_mem _ _ _ h)

theorem mem_foldl_insert_of_mem_dirs (ds : List (List String))
    (fs : List (List String)) (x : List String) (h : x ∈ ds) :
    x ∈ ds.foldl insertIfAbsent fs := by
  induction ds generalizing fs with
  | nil => cases h
  | cons a ds ih =>
      rcases List.mem_cons.mp h with h1 | h1
      · subst h1
        simp only [List.foldl_cons]
        exact mem_foldl_insert_of_mem ds (insertIfAbsent fs x)
          x (self_mem_insertIfAbsent fs x)
      · exact ih _ h1

theorem foldl_insert_eq_of_subset (ds : List (List String))
    (fs : List (List String)) (h : ∀ x ∈ ds, x ∈ fs) :
    ds.foldl insertIfAbsent fs = fs := by
  induction ds with
  | nil => rfl
  | cons a ds ih =>
      have ha : a ∈ fs := h a (List.mem_cons_self a ds)
      simp only [List.foldl_cons, insertIfAbsent_eq_of_mem fs a ha]
      exact ih (fun x hx => h x (List.mem_cons_of_mem a hx))

theorem self_mem_ancestors (d : List String) (hd : d ≠ []) : d ∈ ancestors d := by
  unfold ancestors
  have hlen : 0 < d.length := List.length_pos.mpr hd
  refine List.mem_map.mpr ⟨d.length - 1, List.mem_range.mpr (by omega), ?_⟩
  rw [Nat.sub_add_cancel hlen]
  exact List.take_length d

theorem mem_mkdirParents (fs : List (List String)) (d : List String)
    (hd : d ≠ []) : d ∈ mkdirParents fs d :=
  mem_foldl_insert_of_mem_dirs _ _ _ (self_mem_ancestors d hd)

theorem mkdirParents_idem (fs : List (List String)) (d : List String) :
    mkdirParents (mkdirParents fs d) d = mkdirParents fs d :=
  foldl_insert_eq_of_subset _ _
    (fun _ hx => mem_foldl_insert_of_mem_dirs _ _ _ hx)

/-! Helper lemmas about event traces. -/

theorem events_mono_stop_preview (x : Sys) (e : Event) (h : e ∈ x.events) :
    e ∈ (stop_preview x).events := by
  unfold stop_preview
  split
  · exact h
  · exact List.mem_append_left _ h

theorem events_mono_stop_recording (x : Sys) (e : Event) (h : e ∈ x.events) :
    e ∈ (stop_recording x).events :=
  List.mem_append_left _ h

/-! Theorems settling the claims. -/

/-- C1: the claim says that after start_preview() followed by stop_preview()
no CaptureWorker is running (within one capture plus one interval), and that
Mode differs from Idle exactly when one worker is running or transitioning.
The code violates this: stop_preview resets the mode and fires the hook but
never signals any worker (the model keeps no reference to the thread and the
worker's stop attribute is a boolean), so after the sequence the worker's
running flag is still true and its stop flag still false — and it stays that
way forever: the next loop pass dies on the NameError in _should_stop_full,
leaving running true with the mode Idle. -/
theorem c1_stop_preview_never_signals_worker :
    (stop_preview (step0 (start_preview initSys).1)).mode = Mode.idle ∧
    (stop_preview (step0 (start_preview initSys).1)).workers.map
      WorkerObj.stopFlag = [false] ∧
    (stop_preview (step0 (start_preview initSys).1)).workers.map
      WorkerObj.running = [true] ∧
    ((step0 (stop_preview (step0 (start_preview initSys).1))).workers.map
      WorkerObj.status = [ThreadStatus.crashed PyErr.nameError]) ∧
    (∀ n : Nat,
      (step0^[n + 1] (stop_preview (step0 (start_preview initSys).1))).workers.map
        WorkerObj.running = [true]) := by
  refine ⟨by decide, by decide, by decide, by decide, ?_⟩
  have hfix : step0 (step0 (stop_preview (step0 (start_preview initSys).1)))
      = step0 (stop_preview (step0 (start_preview initSys).1)) := by decide
  have key : ∀ n : Nat,
      step0^[n + 1] (stop_preview (step0 (start_preview initSys).1))
        = step0 (stop_preview (step0 (start_preview initSys).1)) := by
    intro n
    induction n with
    | zero => rfl
    | succ n ih => rw [Function.iterate_succ_apply', ih, hfix]
  intro n
  rw [key n]
  decide

/-- C2: the claim says stop() is idempotent and never fails (logging and
returning when not running, setting the stop flag when running). The code
violates it: `__init__` stores the boolean False in the instance attribute
`stop`, which shadows the class method of the same name, so every call
expression `worker.stop()` resolves to a boolean and raises TypeError — even
though the class dictionary still holds the method whose body implements
exactly the claimed behaviour. -/
theorem c2_stop_call_raises_type_error (w : WorkerObj) :
    callMethodStop w = Except.error PyErr.typeError ∧
    (instanceAttrs w).lookup "stop" = some (PyVal.vBool w.stopFlag) ∧
    classAttrs.lookup "stop" = some (PyVal.vMethod "stop") :=
  ⟨rfl, rfl, rfl⟩

/-- C3: the claim says each loop iteration computes the free bytes of the
filesystem holding the target directory's parent and raises a disk-exhaustion
condition exactly when they fall below min_free megabytes. The code violates
it: `_should_stop_full` reads the name `path`, which is bound neither locally
nor at module scope nor as a builtin, so every call raises NameError before
any disk-usage computation, alert or stop can happen — for every disk oracle,
state and worker. -/
theorem c3_should_stop_full_raises_name_error (diskFree : String → Int)
    (s : Sys) (w : WorkerObj) :
    shouldStopFull diskFree s w = Except.error PyErr.nameError := rfl

/-- C4: for every n outside [MIN_INTERVAL, MAX_INTERVAL] = [1, 600],
set_interval(n) leaves get_interval() unchanged and signals nothing; for
every n within the bounds, get_interval() afterwards returns n. -/
theorem c4_set_interval_bounds (n : Int) (s : Sys) :
    ((n < 1 ∨ n > 600) → get_interval (set_interval n s) = get_interval s) ∧
    (1 ≤ n → n ≤ 600 → get_interval (set_interval n s) = n) := by
  constructor
  · intro h
    unfold set_interval MIN_INTERVAL MAX_INTERVAL
    rw [if_pos (by omega)]
  · intro h1 h2
    unfold set_interval MIN_INTERVAL MAX_INTERVAL
    rw [if_neg (by omega)]
    rfl

/-- C4 witness: set_interval 700 is a no-op and set_interval 30 takes effect,
at the concrete startup state. -/
theorem c4_set_interval_bounds_witness :
    get_interval (set_interval 700 initSys) = get_interval initSys ∧
    get_interval (set_interval 30 initSys) = 30 :=
  ⟨(c4_set_interval_bounds 700 initSys).1 (Or.inr (by norm_num)),
   (c4_set_interval_bounds 30 initSys).2 (by norm_num) (by norm_num)⟩

/-- C5: the claim says a failing capture invocation surfaces a user-visible
error, force-stops every active worker, and re-raises the failure, with
onImage fired only after successful captures. The code deviates: the except
clause of take_image does show the error and force the mode to Idle, but its
`self.stop()` call raises TypeError (the boolean instance attribute shadows
the method), so the worker object leaves the handler unchanged — no stop flag
is set — and the TypeError propagates in place of the original failure, the
bare `raise` being unreachable; moreover `subprocess.run` is invoked without
exit-status checking, so after a capture whose process merely exits nonzero
the onImage hook still fires. -/
theorem c5_take_image_failure_path (s : Sys) (w : WorkerObj) (now : DateTime)
    (c : Int) :
    (take_image CaptureOutcome.raises now s w).2.2
      = Except.error PyErr.typeError ∧
    (take_image CaptureOutcome.raises now s w).2.1 = w ∧
    (take_image CaptureOutcome.raises now s w).1.mode = Mode.idle ∧
    Event.showError ∈ (take_image CaptureOutcome.raises now s w).1.events ∧
    Event.onImage (pathString (getJpegComps s w now).2) ∈
      (take_image (CaptureOutcome.ran c) now s w).1.events := by
  refine ⟨rfl, rfl, rfl, ?_, ?_⟩
  · apply events_mono_stop_recording
    apply events_mono_stop_preview
    exact List.mem_append_right _ (List.mem_singleton.mpr rfl)
  · exact List.mem_append_right _ (List.mem_singleton.mpr rfl)

/-- C6 counterexample: with the mode Preview (not Recording), stop_recording()
is not a silent no-op — it changes the mode and fires the hook, refuting the
claimed symmetry with stop_preview. -/
theorem c6_counterexample :
    ({ initSys with mode := Mode.preview } : Sys).mode ≠ Mode.recording ∧
    (stop_recording { initSys with mode := Mode.preview }).mode
      ≠ ({ initSys with mode := Mode.preview } : Sys).mode ∧
    (stop_recording { initSys with mode := Mode.preview }).events
      ≠ ({ initSys with mode := Mode.preview } : Sys).events := by
  decide

/-- C6 (amended): stop_recording() is not symmetric to stop_preview(): it
performs no mode check, so in every mode it sets the mode to Idle and fires
the mode-changed hook; it signals no worker. stop_preview(), by contrast, is
a silent no-op whenever the mode is not Preview. -/
theorem c6_stop_recording_unconditional (s : Sys) :
    (stop_recording s).mode = Mode.idle ∧
    (stop_recording s).events = s.events ++ [Event.onUiupdate] ∧
    (stop_recording s).workers = s.workers ∧
    (s.mode ≠ Mode.preview → stop_preview s = s) := by
  refine ⟨rfl, rfl, rfl, fun h => ?_⟩
  unfold stop_preview
  exact if_pos h

/-- C6 witness: at the idle startup state, stop_recording still forces Idle
and fires the hook, while stop_preview is a no-op. -/
theorem c6_stop_recording_unconditional_witness :
    (stop_recording initSys).mode = Mode.idle ∧
    (stop_recording initSys).events = initSys.events ++ [Event.onUiupdate] ∧
    (stop_recording initSys).workers = initSys.workers ∧
    stop_preview initSys = initSys :=
  ⟨(c6_stop_recording_unconditional initSys).1,
   (c6_stop_recording_unconditional initSys).2.1,
   (c6_stop_recording_unconditional initSys).2.2.1,
   (c6_stop_recording_unconditional initSys).2.2.2 (by decide)⟩

/-- C7 counterexample: two distinct invocation instants that differ only in
their sub-second part (0 vs 500000 microseconds) make start_recording()
return the same path, so timestamp-derived filenames are NOT unique per
invocation and a prior capture at that path would be overwritten. -/
theorem c7_counterexample :
    t0 ≠ { t0 with microsecond := 500000 } ∧
    (start_recording initSys t0).2 =
      (start_recording initSys { t0 with microsecond := 500000 }).2 := by
  decide

/-- C7 (amended): every call to start_recording() sets the mode to Recording,
fires the mode-changed hook, and returns the path
work_dir/year/MBF_Y-m-d_H-M-S.jpeg built from the invocation time truncated
to whole seconds — so filenames are unique only at second granularity: any
two invocations within the same second yield the same path — while every
start_preview() within the same work_dir returns the fixed path
work_dir/preview.jpeg. -/
theorem c7_start_recording_path (s : Sys) (now : DateTime) :
    (start_recording s now).1.mode = Mode.recording ∧
    (start_recording s now).1.events = s.events ++ [Event.onUiupdate] ∧
    (start_recording s now).2 =
      pathString (s.work_dir ++ [toString now.year,
        "MBF_" ++ strftimeToken now ++ ".jpeg"]) ∧
    (∀ t2 : DateTime, truncToSecond t2 = truncToSecond now →
      (start_recording s t2).2 = (start_recording s now).2) ∧
    (start_preview s).2 = pathString (s.work_dir ++ ["preview.jpeg"]) := by
  refine ⟨rfl, rfl, ?_, ?_, rfl⟩
  · show pathString ((s.work_dir ++ [toString now.year]) ++
      ["MBF_" ++ strftimeToken now ++ ".jpeg"]) = _
    rw [List.append_assoc]
    rfl
  · intro t2 h
    cases t2
    cases now
    simp only [truncToSecond, DateTime.mk.injEq, and_true] at h
    obtain ⟨hy, hm, hd, hh, hmin, hs⟩ := h
    subst hy
    subst hm
    subst hd
    subst hh
    subst hmin
    subst hs
    rfl

/-- C7 witness: at the startup state and the concrete clock reading, the mode
becomes Recording and an invocation one microsecond later maps to the same
path. -/
theorem c7_start_recording_path_witness :
    (start_recording initSys t0).1.mode = Mode.recording ∧
    (start_recording initSys { t0 with microsecond := 1 }).2
      = (start_recording initSys t0).2 :=
  ⟨(c7_start_recording_path initSys t0).1,
   (c7_start_recording_path initSys t0).2.2.2.1 { t0 with microsecond := 1 }
     (by decide)⟩

/-- C8: loading from a missing or unreadable store yields the built-in
defaults without error; loading a present but unparseable store is a fatal
propagated error; and an unknown field in a readable store is ignored — the
load result is the same with or without it. -/
theorem c8_load_error_handling (home : String) (o : JObj) (k : String)
    (v : JVal) (hk : k ≠ "interval" ∧ k ≠ "work_dir" ∧ k ≠ "min_free") :
    AppConfig.load home StoreFile.missing = Except.ok (defaultConfig home) ∧
    AppConfig.load home StoreFile.unreadable = Except.ok (defaultConfig home) ∧
    AppConfig.load home (StoreFile.text JsonDoc.malformed)
      = Except.error PyErr.valueError ∧
    AppConfig.load home (StoreFile.text (JsonDoc.objValue ((k, v) :: o)))
      = AppConfig.load home (StoreFile.text (JsonDoc.objValue o)) := by
  obtain ⟨h1, h2, h3⟩ := hk
  have e1 : ("interval" == k) = false := beq_eq_false_iff_ne.mpr (Ne.symm h1)
  have e2 : ("work_dir" == k) = false := beq_eq_false_iff_ne.mpr (Ne.symm h2)
  have e3 : ("min_free" == k) = false := beq_eq_false_iff_ne.mpr (Ne.symm h3)
  refine ⟨rfl, rfl, rfl, ?_⟩
  simp [AppConfig.load, AppConfig.fromKwargs, List.lookup, e1, e2, e3]

/-- C8 witness: a store carrying the unknown field `color` loads exactly like
the store without it, and the missing/unreadable/malformed cases behave as
claimed, at concrete inputs. -/
theorem c8_load_error_handling_witness :
    AppConfig.load "/home/pi" StoreFile.missing
      = Except.ok (defaultConfig "/home/pi") ∧
    AppConfig.load "/home/pi" StoreFile.unreadable
      = Except.ok (defaultConfig "/home/pi") ∧
    AppConfig.load "/home/pi" (StoreFile.text JsonDoc.malformed)
      = Except.error PyErr.valueError ∧
    AppConfig.load "/home/pi" (StoreFile.text (JsonDoc.objValue
        [("color", JVal.jstr "red"), ("interval", JVal.jnum 7)]))
      = AppConfig.load "/home/pi" (StoreFile.text (JsonDoc.objValue
        [("interval", JVal.jnum 7)])) :=
  c8_load_error_handling "/home/pi" [("interval", JVal.jnum 7)] "color"
    (JVal.jstr "red") ⟨by decide, by decide, by decide⟩

/-- C9: saving a configuration and reloading it from the produced store is
the identity — every field (interval, work_dir, min_free) round-trips, for
every configuration and home directory. -/
theorem c9_save_load_round_trip (home : String) (c : AppConfig) :
    AppConfig.load home (AppConfig.save c) = Except.ok c := rfl

/-- C10: every call to start_recording() creates the year-named directory
under work_dir on disk as a side effect of computing the output path — before
any image is captured — and re-creating it is idempotent (a second mkdir on
the resulting filesystem changes nothing, as exist_ok tolerates the prior
existence). -/
theorem c10_start_recording_creates_year_dir (s : Sys) (now : DateTime) :
    (s.work_dir ++ [toString now.year]) ∈ (start_recording s now).1.fs ∧
    mkdirParents (start_recording s now).1.fs
      (s.work_dir ++ [toString now.year]) = (start_recording s now).1.fs := by
  have hfs : (start_recording s now).1.fs
      = mkdirParents s.fs (s.work_dir ++ [toString now.year]) := rfl
  constructor
  · rw [hfs]
    exact mem_mkdirParents _ _ (by simp)
  · rw [hfs]
    exact mkdirParents_idem _ _

end Pinsect
